import Mathlib

/-!
Verification of the pipeline orchestration engine of the Refactoring-Swarm
repository (`main.py`, `src/agents/*.py`, `src/utils/llm_fallback.py`,
`src/utils/logger.py`).  Python functions are shallowly embedded as
executable Lean definitions; external LLM backends, the file system, and
subprocess runners are abstracted as oracle parameters.
-/

/-! ## String utilities modelling Python primitives -/

/-- Python `str.lower()` restricted to ASCII, which is all the engine's
token and marker strings use. -/
def pyLower (s : String) : String :=
  String.mk (s.toList.map Char.toLower)

/-- Occurrence of `pat` as a contiguous run of `l`, scanning suffixes. -/
def containsFrom (pat : List Char) : List Char → Bool
  | [] => pat.isEmpty
  | c :: rest => pat.isPrefixOf (c :: rest) || containsFrom pat rest

/-- Python's `pat in s` substring test. -/
def strContains (s pat : String) : Bool :=
  containsFrom pat.toList s.toList

/-- Python `\s` (ASCII white space) as used by `re.search`. -/
def isPySpace (c : Char) : Bool :=
  c = ' ' || c = '\t' || c = '\n' || c = '\r' || c = '\x0b' || c = '\x0c'

/-- Numeric value of a digit run, as Python `int(...)` reads it. -/
def digitsVal (ds : List Char) : Nat :=
  ds.foldl (fun n c => n * 10 + (c.toNat - 48)) 0

/-- Attempt to match the regex `(\d+)\s+<w>` at the head of `l`
(greedy digit run, then greedy white-space run, then the literal word),
returning the captured count. -/
def matchCountAt (w : List Char) (l : List Char) : Option Nat :=
  let ds := l.takeWhile Char.isDigit
  if ds.isEmpty then none
  else
    let r1 := l.dropWhile Char.isDigit
    if (r1.takeWhile isPySpace).isEmpty then none
    else
      let r2 := r1.dropWhile isPySpace
      if w.isPrefixOf r2 then some (digitsVal ds) else none

/-- Leftmost match of `(\d+)\s+<w>` in `l`, as Python
`re.search(r'(\d+)\s+<w>', l)` finds it; returns `int(match.group(1))`. -/
def findCount (w : List Char) : List Char → Option Nat
  | [] => none
  | c :: rest =>
    match matchCountAt w (c :: rest) with
    | some n => some n
    | none => findCount w rest

/-! ## Verify-outcome classifier (main.py, judge_node lines 89-109) -/

/-- Embeds the outcome classification inside `judge_node` of `main.py`:
first the explicit `VERDICT` tokens on the lowercased output, then the
free-text fallback parsing `(\d+)\s+passed` and `(\d+)\s+failed` counts,
succeeding exactly when some tests passed and none failed. -/
def judge_classify (output : String) : Bool :=
  let ol := pyLower output
  if strContains ol "verdict: all_tests_passed" then true
  else if strContains ol "verdict: tests_failed" then false
  else
    match findCount "passed".toList ol.toList with
    | some passed_count =>
      let failed_count := (findCount "failed".toList ol.toList).getD 0
      decide (0 < passed_count) && decide (failed_count = 0)
    | none => false

example : judge_classify "5 passed, 0 failed" = true := by decide
example : judge_classify "0 passed, 0 failed" = false := by decide
example : judge_classify "no numbers here" = false := by decide
example : judge_classify "VERDICT: ALL_TESTS_PASSED (3 failed earlier)" = true := by decide
example : judge_classify "VERDICT: TESTS_FAILED but 5 passed, 0 failed" = false := by decide
example : judge_classify "7 passed" = true := by decide
example : judge_classify "2 passed, 1 failed" = false := by decide

/-! ## Backend fallback executor
(src/agents/fixer_agent.py `run_fixer_agent`, src/agents/judge_agent.py
`run_judge_agent`, src/agents/auditor_agent.py `run_auditor_agent` — all
three share the identical fallback loop; src/utils/llm_fallback.py). -/

/-- Ordered backend list `FREE_MODELS` from src/utils/llm_fallback.py. -/
def FREE_MODELS : List String :=
  ["mistralai/devstral-2512:free", "meta-llama/llama-3.3-70b-instruct:free"]

/-- Result of one backend attempt: the agent executor either returns an
output string or raises an exception with message `msg`. -/
inductive AttemptResult where
  | ok (output : String)
  | err (msg : String)
deriving DecidableEq

/-- Error-marker substrings of the `retryable = any(x in error_str ...)`
check in `run_fixer_agent` / `run_judge_agent` / `run_auditor_agent`. -/
def retryable_markers : List String :=
  ["429", "rate limit", "streaming", "tools are not supported",
   "400", "404", "no endpoints", "tool use", "provider"]

/-- Error classification of the agent runners: an exception is retried on
the next backend exactly when its lowercased message contains one of the
nine marker substrings; otherwise it is re-raised at once. -/
def classify_retryable (msg : String) : Bool :=
  retryable_markers.any (fun x => strContains (pyLower msg) x)

/-- Marker substrings of the retryable check in
`invoke_with_fallback` (src/utils/llm_fallback.py lines 135-148), which
uses a shorter list than the agent runners. -/
def invoke_fallback_markers : List String :=
  ["429", "rate limit", "streaming", "tools are not supported"]

/-- Error classification used by `invoke_with_fallback`. -/
def classify_retryable_invoke (msg : String) : Bool :=
  invoke_fallback_markers.any (fun x => strContains (pyLower msg) x)

/-- Observable outcome of a `run_*_agent` call: a successful return with
the output and the model that served it, a raised exception carrying the
message of some backend's own error, or Python's `raise None` (only
reachable with an empty backend list). -/
inductive RunOutcome where
  | success (output : String) (model : String)
  | raised (msg : String)
  | raisedNone
deriving DecidableEq

/-- Embeds the `for model in FREE_MODELS: try ... except ...` loop shared
by `run_fixer_agent`, `run_judge_agent` and `run_auditor_agent`: attempt
each backend in order; return on first success; on a retryable error
record it as `last_exception` and continue; on any other error re-raise
it immediately; after exhausting the list re-raise `last_exception`.
Also returns the list of backends actually attempted, in order. -/
def run_with_fallback (attempt : String → AttemptResult) :
    List String → Option String → RunOutcome × List String
  | [], last =>
    (match last with
     | some e => RunOutcome.raised e
     | none => RunOutcome.raisedNone, [])
  | m :: rest, _ =>
    match attempt m with
    | AttemptResult.ok out => (RunOutcome.success out m, [m])
    | AttemptResult.err e =>
      if classify_retryable e then
        let r := run_with_fallback attempt rest (some e)
        (r.1, m :: r.2)
      else
        (RunOutcome.raised e, [m])

/-- `run_fixer_agent` of src/agents/fixer_agent.py, with the backend
attempt abstracted as an oracle. -/
def run_fixer_agent (attempt : String → AttemptResult) : RunOutcome × List String :=
  run_with_fallback attempt FREE_MODELS none

/-- `run_judge_agent` of src/agents/judge_agent.py: the identical
fallback loop over the same `FREE_MODELS` list. -/
def run_judge_agent (attempt : String → AttemptResult) : RunOutcome × List String :=
  run_with_fallback attempt FREE_MODELS none

/-! ## Workflow engine (main.py) -/

/-- Graph state `AgentState` of main.py. -/
structure AgentState where
  input : String
  output : String
  iteration : Nat
  test_passed : Bool
  model_used : String
deriving DecidableEq

/-- State update of `auditor_node` (main.py lines 34-54): stores the
auditor's output and model, resets `iteration` to 0 and `test_passed`
to `False`. -/
def auditor_node (result : String × String) (s : AgentState) : AgentState :=
  { input := s.input, output := result.1, iteration := 0,
    test_passed := false, model_used := result.2 }

/-- State update of `fixer_node` (main.py lines 56-80): stores the
fixer's output and model and increments `iteration`. -/
def fixer_node (result : String × String) (s : AgentState) : AgentState :=
  { input := s.input, output := result.1, iteration := s.iteration + 1,
    test_passed := s.test_passed, model_used := result.2 }

/-- State update of `judge_node` (main.py lines 82-128): stores the
judge's output and model and classifies the outcome into `test_passed`;
`iteration` is unchanged. -/
def judge_node (result : String × String) (s : AgentState) : AgentState :=
  { input := s.input, output := result.1, iteration := s.iteration,
    test_passed := judge_classify result.1, model_used := result.2 }

/-- `should_continue` of main.py lines 130-144: the conditional edge out
of the judge node, with `max_iterations = 3` hard-coded as in the code. -/
def should_continue (s : AgentState) : String :=
  if s.test_passed then "end"
  else if 3 ≤ s.iteration then "end"
  else "prepare_feedback"

/-- Leading text of the feedback f-string in `prepare_feedback`. -/
def fb_header : String :=
  "\n=== TEST FAILURE FEEDBACK ===\nThe following issues were found during testing:\n\n"

/-- Trailing text of the feedback f-string in `prepare_feedback`. -/
def fb_footer : String :=
  "\n\nPlease fix the code to make the tests pass. Focus on:\n1. Any runtime errors mentioned\n2. Assertion failures\n3. Missing functionality\n"

/-- Feedback text constructed by `prepare_feedback` (main.py lines
146-164): the judge's report wrapped between `fb_header` and
`fb_footer`. -/
def feedback_text (out : String) : String :=
  fb_header ++ out ++ fb_footer

/-- State update of `prepare_feedback` (main.py lines 146-164): replaces
`output` with the feedback text; `iteration` is unchanged and
`test_passed` is set to `False` (it already is on this path). -/
def prepare_feedback (s : AgentState) : AgentState :=
  { input := s.input, output := feedback_text s.output,
    iteration := s.iteration, test_passed := false,
    model_used := s.model_used }

/-! ## Logging (src/utils/logger.py as called from main.py) -/

/-- Observable content of one log record written by
`log_startup` / `log_agent_interaction` / `log_completion`
(id, timestamp and prompt excerpts are elided). -/
structure LogEntry where
  agent : String
  action : String
  status : String
  iteration : Nat
deriving DecidableEq

/-- Count of log entries recorded for a given agent name. -/
def countAgent (a : String) (es : List LogEntry) : Nat :=
  es.countP (fun e => e.agent == a)

/-- Log records one Fix→Verify cycle appends in main.py: `fixer_node`
and `judge_node` each call `log_agent_interaction` exactly once after
their agent run returns; `s2` is the state after the judge node (its
`iteration` equals the one logged by both nodes of the cycle). -/
def cycle_entries (s2 : AgentState) : List LogEntry :=
  [⟨"Fixer", "FIX", "SUCCESS", s2.iteration⟩,
   ⟨"Judge", "TEST",
    if s2.test_passed then "SUCCESS" else "TESTS_FAILED",
    s2.iteration⟩]

/-- Conditional-edge step after the judge node: either the loop ends at
`s2`, or the tail of the loop (`recTail`) is prefixed with this cycle's
records and attempt count. -/
def cycle_finish (s2 : AgentState) (att2 : Nat)
    (recTail : Option (AgentState × List LogEntry × Nat)) :
    Option (AgentState × List LogEntry × Nat) :=
  if should_continue s2 = "end" then some (s2, cycle_entries s2, att2)
  else
    match recTail with
    | none => none
    | some (sf, es, att) => some (sf, cycle_entries s2 ++ es, att2 + att)

/-- Fix→Verify loop of the compiled graph in main.py, instrumented with
the log records the nodes emit and the total number of backend attempts.
`F k` / `J k` is the backend-attempt oracle of the k-th fixer / judge
call (k = the `iteration` value before the fixer call).  Failed backend
attempts inside `run_with_fallback` emit no records.  A raised agent
exception aborts the session (`none`); the fuel argument only makes the
recursion structural and never cuts a session short (see
`run_cycles_log_fuel_stable`). -/
def run_cycles_log (F J : Nat → String → AttemptResult) :
    Nat → AgentState → Option (AgentState × List LogEntry × Nat)
  | 0, _ => none
  | fuel + 1, s =>
    match run_with_fallback (F s.iteration) FREE_MODELS none with
    | (RunOutcome.success fout fm, ftr) =>
      match run_with_fallback (J s.iteration) FREE_MODELS none with
      | (RunOutcome.success jout jm, jtr) =>
        cycle_finish (judge_node (jout, jm) (fixer_node (fout, fm) s))
          (ftr.length + jtr.length)
          (run_cycles_log F J fuel
            (prepare_feedback (judge_node (jout, jm) (fixer_node (fout, fm) s))))
      | _ => none
    | _ => none

/-- One full session of `main()` in main.py: startup record, auditor
stage, the Fix→Verify loop, completion record.  Returns the final state,
the full ordered log, and the total number of backend attempts, or
`none` when a stage raised and the session aborted. -/
def run_session_log (target : String) (A : String → AttemptResult)
    (F J : Nat → String → AttemptResult) :
    Option (AgentState × List LogEntry × Nat) :=
  match run_with_fallback A FREE_MODELS none with
  | (RunOutcome.success aout am, atr) =>
    let s0 := auditor_node (aout, am)
      { input := target, output := "", iteration := 0,
        test_passed := false, model_used := "" }
    match run_cycles_log F J 3 s0 with
    | some (sf, es, att) =>
      some (sf,
        ⟨"SYSTEM", "STARTUP", "STARTED", 0⟩ ::
        ⟨"Auditor", "CODE_ANALYSIS", "SUCCESS", 0⟩ ::
        (es ++ [⟨"SYSTEM", "COMPLETION",
          if sf.test_passed then "SUCCESS" else "COMPLETED_WITH_FAILURES",
          sf.iteration⟩]),
        atr.length + att)
    | none => none
  | _ => none

/-! ## Log store (src/utils/logger.py `_write_log_entry`) -/

/-- Observable states of the JSON log file `logs/experiment_data.json`:
missing, present but not decodable as JSON (or empty), or decodable as a
list of entries. -/
inductive LogFile where
  | missing
  | corrupt
  | entries (l : List LogEntry)
deriving DecidableEq

/-- Data `_write_log_entry` loads before appending: the decoded list
when the file decodes, `[]` when the file is missing, empty, or raises
`JSONDecodeError`. -/
def loadedData : LogFile → List LogEntry
  | LogFile.missing => []
  | LogFile.corrupt => []
  | LogFile.entries l => l

/-- `_write_log_entry` of src/utils/logger.py lines 119-136: load the
existing list, append the one new entry, and immediately rewrite the
file with the result. -/
def write_log_entry (e : LogEntry) (f : LogFile) : LogFile :=
  LogFile.entries (loadedData f ++ [e])

/-- Sequence of `_write_log_entry` calls applied in order. -/
def write_log_entries (es : List LogEntry) (f : LogFile) : LogFile :=
  es.foldl (fun g e => write_log_entry e g) f

/-! ## Sandboxed file tools
(src/agents/fixer_agent.py `read_file_content` / `write_file_content`,
src/agents/judge_agent.py `write_file` / `run_pytest`,
src/agents/auditor_agent.py `run_pylint`).  Paths are modelled as lists
of components of an absolute path; the resolved `SANDBOX_ROOT` is a
parameter `root`.  Every Python tool body is wrapped in
`try ... except Exception` returning a string, so each embedding is a
total function — no exception reaches the caller. -/

/-- Python `s.startswith(pat)`. -/
def strStartsWith (s pat : String) : Bool :=
  pat.toList.isPrefixOf s.toList

/-- Helper of `splitSlash`: accumulates the current component in
reverse. -/
def splitSlashAux : List Char → List Char → List String
  | [], acc => [String.mk acc.reverse]
  | c :: rest, acc =>
    if c = '/' then String.mk acc.reverse :: splitSlashAux rest []
    else splitSlashAux rest (c :: acc)

/-- Python `s.split('/')` as pathlib's parsing of a POSIX path string
performs it. -/
def splitSlash (s : String) : List String :=
  splitSlashAux s.toList []

/-- Python `file_path.replace('sandbox/', '', 1)` applied after the
`startswith('sandbox/')` check at the top of every tool. -/
def dropSandboxDir (fp : String) : String :=
  if strStartsWith fp "sandbox/" then String.mk (fp.toList.drop 8) else fp

/-- Lexical normalization performed by `Path.resolve()`: drop empty and
`.` components, let `..` pop the previous component (or stay at the
root). -/
def normalizeComps (cs : List String) : List String :=
  cs.foldl
    (fun acc c =>
      if c = "" ∨ c = "." then acc
      else if c = ".." then acc.dropLast
      else acc ++ [c])
    []

/-- `(SANDBOX_ROOT / file_path).resolve()`: an absolute `file_path`
replaces the root entirely (pathlib `/` semantics), otherwise the path
is joined under the root; then the result is normalized. -/
def resolveUnder (root : List String) (fp : String) : List String :=
  if strStartsWith fp "/" then normalizeComps (splitSlash fp)
  else normalizeComps (root ++ splitSlash fp)

/-- `safe_path.is_relative_to(SANDBOX_ROOT)`. -/
def insideSandbox (root safe : List String) : Bool :=
  root.isPrefixOf safe

/-- File system snapshot: the files that exist, keyed by resolved
component path. -/
structure FS where
  files : List (List String × String)
deriving DecidableEq

/-- Content of the file at `p`, when a file exists there. -/
def FS.lookupFile (fs : FS) (p : List String) : Option String :=
  fs.files.lookup p

/-- Whether `p` denotes a directory: some file lives strictly below it. -/
def FS.isDirAt (fs : FS) (p : List String) : Bool :=
  fs.files.any (fun q => (p != q.1) && p.isPrefixOf q.1)

/-- Python `safe_path.exists()` in this model. -/
def FS.existsPath (fs : FS) (p : List String) : Bool :=
  (fs.lookupFile p).isSome || fs.isDirAt p

/-- Write (create or overwrite) the file at `p`. -/
def FS.writeAt (fs : FS) (p : List String) (content : String) : FS :=
  ⟨(p, content) :: fs.files.filter (fun q => q.1 != p)⟩

/-- `read_file_content` tool (identical guard logic in all three agent
files; the not-found message of the fixer variant differs in wording
only).  Resolves the path under the sandbox root, refuses resolved paths
outside it, and returns file content or an error string. -/
def read_file_content (root : List String) (fp : String) (fs : FS) : String :=
  let fp2 := dropSandboxDir fp
  let safe := resolveUnder root fp2
  if insideSandbox root safe = false then "Access denied: path outside sandbox"
  else if fs.existsPath safe = false then "File not found: " ++ fp2
  else
    match fs.lookupFile safe with
    | some content => content
    | none => "Not a file: " ++ fp2

/-- `write_file_content` tool of src/agents/fixer_agent.py lines 91-113:
same guard, then writes the file (creating parents) and reports; outside
the sandbox it returns the denial string and leaves the file system
untouched. -/
def write_file_content (root : List String) (fp content : String) (fs : FS) :
    String × FS :=
  let fp2 := dropSandboxDir fp
  let safe := resolveUnder root fp2
  if insideSandbox root safe = false then
    ("Access denied: path outside sandbox", fs)
  else
    ("✅ Successfully wrote corrected code to " ++ fp2, fs.writeAt safe content)

/-- `write_file` tool of src/agents/judge_agent.py lines 92-113: the
same behavior with a different success message. -/
def write_file (root : List String) (fp content : String) (fs : FS) :
    String × FS :=
  let fp2 := dropSandboxDir fp
  let safe := resolveUnder root fp2
  if insideSandbox root safe = false then
    ("Access denied: path outside sandbox", fs)
  else
    ("✅ Successfully wrote test file to " ++ fp2, fs.writeAt safe content)

/-- `run_pytest` tool of src/agents/judge_agent.py lines 115-148, with
the pytest subprocess abstracted as `runner`; subprocess output is only
produced for resolved paths inside the sandbox that exist. -/
def run_pytest (root : List String) (fp : String) (fs : FS)
    (runner : List String → String) : String :=
  let fp2 := dropSandboxDir fp
  let safe := resolveUnder root fp2
  if insideSandbox root safe = false then "Access denied: path outside sandbox"
  else if fs.existsPath safe = false then "Test path not found: " ++ fp2
  else "PYTEST RESULTS:\n" ++ runner safe ++ "\n"

/-- `run_pylint` tool of src/agents/auditor_agent.py lines 146-179, with
the pylint subprocess abstracted as `runner`. -/
def run_pylint (root : List String) (fp : String) (fs : FS)
    (runner : List String → String) : String :=
  let fp2 := dropSandboxDir fp
  let safe := resolveUnder root fp2
  if insideSandbox root safe = false then "Access denied: path outside sandbox"
  else if fs.existsPath safe = false then "File not found: " ++ fp2
  else if (fs.lookupFile safe).isSome = false then "Not a file: " ++ fp2
  else runner safe

/-! ## Spec-side classifier for the refinement check of claim C7 -/

/-- Marker substrings corresponding to the spec's enumeration of
Retryable conditions in section 4.2: too-many-requests and rate limiting
(`429`, `rate limit`), endpoint-not-found (`404`, `no endpoints`),
capability-not-supported and protocol incompatibility (`streaming`,
`tools are not supported`, `tool use`), backend-side unavailability
(`provider`).  It is the code's marker list without `400`, which the
spec's categories do not cover (an HTTP 400 reports a malformed
request). -/
def spec_retryable_markers : List String :=
  ["429", "rate limit", "404", "no endpoints", "streaming",
   "tools are not supported", "tool use", "provider"]

/-- Classifier following the spec's words in section 4.2, for comparison
with the code's `classify_retryable`. -/
def spec_classify_retryable (msg : String) : Bool :=
  spec_retryable_markers.any (fun x => strContains (pyLower msg) x)

/-! ## Concrete oracle scenarios used by witnesses and counterexamples -/

/-- Auditor backend oracle that succeeds immediately. -/
def auditOkOracle : String → AttemptResult :=
  fun _ => AttemptResult.ok "refactoring plan"

/-- Fixer backend oracle that succeeds immediately on every call. -/
def fixOkOracle : Nat → String → AttemptResult :=
  fun _ _ => AttemptResult.ok "fixes applied"

/-- Judge backend oracle whose report always carries the explicit
failure verdict. -/
def judgeFailOracle : Nat → String → AttemptResult :=
  fun _ _ => AttemptResult.ok "VERDICT: TESTS_FAILED"

/-- Judge backend oracle whose report always carries the explicit
success verdict. -/
def judgePassOracle : Nat → String → AttemptResult :=
  fun _ _ => AttemptResult.ok "VERDICT: ALL_TESTS_PASSED"

/-- Fixer backend oracle whose first backend fails with a retryable
rate-limit error and whose second backend succeeds. -/
def fixRetryOracle : Nat → String → AttemptResult :=
  fun _ m =>
    if m == "mistralai/devstral-2512:free" then
      AttemptResult.err "Error code: 429 - rate limit exceeded"
    else AttemptResult.ok "fixes applied"

/-- Backend oracle on which every attempt fails with the same retryable
rate-limit error. -/
def allRetryAttempt : String → AttemptResult :=
  fun _ => AttemptResult.err "Error code: 429 - rate limit exceeded"

/-- Backend oracle on which every attempt fails with an error none of
the retryable markers match. -/
def fatalAttempt : String → AttemptResult :=
  fun _ => AttemptResult.err "invalid request: missing prompt"

/-! ## Helper lemmas -/

/-- Conditional edge of main.py returns "end" exactly when the tests
passed or the iteration bound is reached. -/
lemma should_continue_end_iff (t : AgentState) :
    should_continue t = "end" ↔ (t.test_passed = true ∨ 3 ≤ t.iteration) := by
  unfold should_continue
  by_cases h1 : t.test_passed <;> by_cases h2 : 3 ≤ t.iteration <;>
    simp [h1, h2]

/-- Success of the fallback loop comes from the reported backend's own
attempt. -/
lemma run_with_fallback_success_src (attempt : String → AttemptResult)
    (out m : String) :
    ∀ (models : List String) (last : Option String),
      (run_with_fallback attempt models last).1 = RunOutcome.success out m →
      attempt m = AttemptResult.ok out := by
  intro models
  induction models with
  | nil =>
    intro last h
    cases last <;> simp [run_with_fallback] at h
  | cons m' rest ih =>
    intro last h
    rw [run_with_fallback] at h
    cases ha : attempt m' with
    | ok o =>
      rw [ha] at h
      simp only [] at h
      obtain ⟨ho, hm⟩ := RunOutcome.success.inj h
      rw [← hm, ha, ho]
    | err e =>
      rw [ha] at h
      by_cases hr : classify_retryable e
      · simp only [hr, if_true] at h
        exact ih (some e) h
      · simp only [hr, if_false] at h
        exact absurd h (by simp)

/-- Record counts of one cycle's log contribution. -/
lemma countAgent_cycle (s2 : AgentState) :
    countAgent "Fixer" (cycle_entries s2) = 1 ∧
    countAgent "Judge" (cycle_entries s2) = 1 ∧
    (cycle_entries s2).length = 2 := by
  refine ⟨?_, ?_, rfl⟩ <;> simp [countAgent, cycle_entries, List.countP_cons]

/-- Agent-count splits over appended logs. -/
lemma countAgent_append (a : String) (es fs : List LogEntry) :
    countAgent a (es ++ fs) = countAgent a es + countAgent a fs := by
  simp [countAgent, List.countP_append]

/-- Iteration after one fixer-then-judge step. -/
lemma judge_fixer_iteration (r1 r2 : String × String) (s : AgentState) :
    (judge_node r2 (fixer_node r1 s)).iteration = s.iteration + 1 := rfl

/-- Core invariant of the instrumented Fix→Verify loop: on any completed
run, fixer and judge records come in equal numbers, the final iteration
counter advanced by exactly the number of fixer records, at least one
cycle ran, every record belongs to a cycle, the loop only stopped on a
passed verdict or an exhausted bound, and the final counter never
exceeds `max (start + 1) 3`. -/
lemma run_cycles_log_spec (F J : Nat → String → AttemptResult) :
    ∀ (fuel : Nat) (s sf : AgentState) (es : List LogEntry) (att : Nat),
      run_cycles_log F J fuel s = some (sf, es, att) →
      countAgent "Fixer" es = countAgent "Judge" es ∧
      sf.iteration = s.iteration + countAgent "Fixer" es ∧
      1 ≤ countAgent "Fixer" es ∧
      es.length = countAgent "Fixer" es + countAgent "Judge" es ∧
      (sf.test_passed = true ∨ 3 ≤ sf.iteration) ∧
      (sf.iteration ≤ s.iteration + 1 ∨ sf.iteration ≤ 3) := by
  intro fuel
  induction fuel with
  | zero => intro s sf es att h; simp [run_cycles_log] at h
  | succ fuel ih =>
    intro s sf es att h
    rw [run_cycles_log] at h
    rcases hF : run_with_fallback (F s.iteration) FREE_MODELS none with ⟨fo, ftr⟩
    rw [hF] at h
    cases fo with
    | raised msg => simp at h
    | raisedNone => simp at h
    | success fout fm =>
      rcases hJ : run_with_fallback (J s.iteration) FREE_MODELS none with ⟨jo, jtr⟩
      rw [hJ] at h
      cases jo with
      | raised msg => simp at h
      | raisedNone => simp at h
      | success jout jm =>
        simp only [] at h
        unfold cycle_finish at h
        by_cases hsc : should_continue
            (judge_node (jout, jm) (fixer_node (fout, fm) s)) = "end"
        · rw [if_pos hsc] at h
          simp only [Option.some.injEq, Prod.mk.injEq] at h
          obtain ⟨hsf, hes, _⟩ := h
          subst hsf; subst hes
          obtain ⟨cf, cj, cl⟩ :=
            countAgent_cycle (judge_node (jout, jm) (fixer_node (fout, fm) s))
          rw [cf, cj, cl, judge_fixer_iteration]
          have hend := (should_continue_end_iff _).mp hsc
          exact ⟨rfl, rfl, le_refl 1, rfl, hend, Or.inl (le_refl _)⟩
        · rw [if_neg hsc] at h
          have hnend : ¬ (judge_node (jout, jm) (fixer_node (fout, fm) s)).test_passed = true ∧
              (judge_node (jout, jm) (fixer_node (fout, fm) s)).iteration < 3 := by
            have hn : ¬ ((judge_node (jout, jm) (fixer_node (fout, fm) s)).test_passed = true ∨
                3 ≤ (judge_node (jout, jm) (fixer_node (fout, fm) s)).iteration) :=
              fun hh => hsc ((should_continue_end_iff _).mpr hh)
            push_neg at hn
            exact ⟨hn.1, hn.2⟩
          cases hrec : run_cycles_log F J fuel
              (prepare_feedback (judge_node (jout, jm) (fixer_node (fout, fm) s))) with
          | none => rw [hrec] at h; simp at h
          | some trip =>
            rcases trip with ⟨sf', es', att'⟩
            rw [hrec] at h
            simp only [Option.some.injEq, Prod.mk.injEq] at h
            obtain ⟨hsf, hes, _⟩ := h
            subst hsf; subst hes
            obtain ⟨ih1, ih2, ih3, ih4, ih5, ih6⟩ := ih _ _ _ _ hrec
            obtain ⟨cf, cj, cl⟩ :=
              countAgent_cycle (judge_node (jout, jm) (fixer_node (fout, fm) s))
            have hpf : (prepare_feedback
                (judge_node (jout, jm) (fixer_node (fout, fm) s))).iteration =
                s.iteration + 1 := rfl
            rw [hpf] at ih2
            have hiter3 : s.iteration + 1 < 3 := by
              have := hnend.2
              rw [judge_fixer_iteration] at this
              exact this
            rw [countAgent_append, countAgent_append, cf, cj,
              List.length_append, cl]
            refine ⟨by omega, by omega, by omega, by omega, ih5, by omega⟩

/-- When every successful judge-backend report classifies as failed, a
completed loop ends with `test_passed = false`. -/
lemma run_cycles_log_all_failed (F J : Nat → String → AttemptResult)
    (hJ : ∀ k m out, J k m = AttemptResult.ok out → judge_classify out = false) :
    ∀ (fuel : Nat) (s sf : AgentState) (es : List LogEntry) (att : Nat),
      run_cycles_log F J fuel s = some (sf, es, att) →
      sf.test_passed = false := by
  intro fuel
  induction fuel with
  | zero => intro s sf es att h; simp [run_cycles_log] at h
  | succ fuel ih =>
    intro s sf es att h
    rw [run_cycles_log] at h
    rcases hF : run_with_fallback (F s.iteration) FREE_MODELS none with ⟨fo, ftr⟩
    rw [hF] at h
    cases fo with
    | raised msg => simp at h
    | raisedNone => simp at h
    | success fout fm =>
      rcases hJp : run_with_fallback (J s.iteration) FREE_MODELS none with ⟨jo, jtr⟩
      rw [hJp] at h
      cases jo with
      | raised msg => simp at h
      | raisedNone => simp at h
      | success jout jm =>
        have hok : J s.iteration jm = AttemptResult.ok jout := by
          refine run_with_fallback_success_src (J s.iteration) jout jm
            FREE_MODELS none ?_
          rw [hJp]
        have hjc : judge_classify jout = false := hJ s.iteration jm jout hok
        simp only [] at h
        unfold cycle_finish at h
        by_cases hsc : should_continue
            (judge_node (jout, jm) (fixer_node (fout, fm) s)) = "end"
        · rw [if_pos hsc] at h
          simp only [Option.some.injEq, Prod.mk.injEq] at h
          obtain ⟨hsf, _, _⟩ := h
          subst hsf
          simpa [judge_node] using hjc
        · rw [if_neg hsc] at h
          cases hrec : run_cycles_log F J fuel
              (prepare_feedback (judge_node (jout, jm) (fixer_node (fout, fm) s))) with
          | none => rw [hrec] at h; simp at h
          | some trip =>
            rcases trip with ⟨sf', es', att'⟩
            rw [hrec] at h
            simp only [Option.some.injEq, Prod.mk.injEq] at h
            obtain ⟨hsf, _, _⟩ := h
            subst hsf
            exact ih _ _ _ _ hrec

/-- Fuel adequacy: once the remaining fuel covers the distance to the
iteration bound, adding fuel does not change the run — so the engine
embedding with fuel 3 from iteration 0 is not cut short by the fuel. -/
lemma run_cycles_log_fuel_stable (F J : Nat → String → AttemptResult) :
    ∀ (fuel : Nat) (s : AgentState), 3 ≤ s.iteration + fuel → 1 ≤ fuel →
      run_cycles_log F J (fuel + 1) s = run_cycles_log F J fuel s := by
  intro fuel
  induction fuel with
  | zero => intro s h h1; omega
  | succ fuel ih =>
    intro s h _
    conv_lhs => rw [run_cycles_log]
    conv_rhs => rw [run_cycles_log]
    rcases hF : run_with_fallback (F s.iteration) FREE_MODELS none with ⟨fo, ftr⟩
    cases fo with
    | raised msg => simp
    | raisedNone => simp
    | success fout fm =>
      rcases hJp : run_with_fallback (J s.iteration) FREE_MODELS none with ⟨jo, jtr⟩
      cases jo with
      | raised msg => simp
      | raisedNone => simp
      | success jout jm =>
        simp only []
        by_cases hsc : should_continue
            (judge_node (jout, jm) (fixer_node (fout, fm) s)) = "end"
        · unfold cycle_finish
          rw [if_pos hsc, if_pos hsc]
        · unfold cycle_finish
          rw [if_neg hsc, if_neg hsc]
          have hiter3 : s.iteration + 1 < 3 := by
            have hn : ¬ ((judge_node (jout, jm) (fixer_node (fout, fm) s)).test_passed = true ∨
                3 ≤ (judge_node (jout, jm) (fixer_node (fout, fm) s)).iteration) :=
              fun hh => hsc ((should_continue_end_iff _).mpr hh)
            push_neg at hn
            have := hn.2
            rw [judge_fixer_iteration] at this
            exact this
          rw [ih (prepare_feedback (judge_node (jout, jm) (fixer_node (fout, fm) s)))
            (by
              have hpf : (prepare_feedback
                  (judge_node (jout, jm) (fixer_node (fout, fm) s))).iteration =
                  s.iteration + 1 := rfl
              rw [hpf]; omega)
            (by omega)]

/-- Agent counts ignore the session-level wrapper records. -/
lemma countAgent_session_wrap (a : String) (es' : List LogEntry)
    (st : String) (n : Nat)
    (ha1 : (("SYSTEM" : String) == a) = false)
    (ha2 : (("Auditor" : String) == a) = false) :
    countAgent a (⟨"SYSTEM", "STARTUP", "STARTED", 0⟩ ::
      ⟨"Auditor", "CODE_ANALYSIS", "SUCCESS", 0⟩ ::
      (es' ++ [⟨"SYSTEM", "COMPLETION", st, n⟩])) = countAgent a es' := by
  simp [countAgent, List.countP_cons, List.countP_append, ha1, ha2]

/-- Length bookkeeping for the session-level wrapper records. -/
lemma length_session_wrap (es' : List LogEntry) (e1 e2 e3 : LogEntry) :
    (e1 :: e2 :: (es' ++ [e3])).length = 3 + es'.length := by
  simp [List.length_append]
  omega

/-- Combined facts about a completed session of the engine: record
counts, iteration accounting, the termination condition, the hard
iteration bound, and (under an all-failing judge) the failed outcome. -/
lemma run_session_log_spec (target : String) (A : String → AttemptResult)
    (F J : Nat → String → AttemptResult) (sf : AgentState)
    (es : List LogEntry) (att : Nat)
    (h : run_session_log target A F J = some (sf, es, att)) :
    countAgent "Fixer" es = countAgent "Judge" es ∧
    sf.iteration = countAgent "Fixer" es ∧
    1 ≤ countAgent "Fixer" es ∧
    es.length = 3 + countAgent "Fixer" es + countAgent "Judge" es ∧
    (sf.test_passed = true ∨ 3 ≤ sf.iteration) ∧
    sf.iteration ≤ 3 ∧
    ((∀ k m out, J k m = AttemptResult.ok out → judge_classify out = false) →
      sf.test_passed = false) := by
  unfold run_session_log at h
  rcases hA : run_with_fallback A FREE_MODELS none with ⟨ao, atr⟩
  rw [hA] at h
  cases ao with
  | raised msg => simp at h
  | raisedNone => simp at h
  | success aout am =>
    simp only [] at h
    cases hcyc : run_cycles_log F J 3
        (auditor_node (aout, am)
          { input := target, output := "", iteration := 0,
            test_passed := false, model_used := "" }) with
    | none => rw [hcyc] at h; simp at h
    | some trip =>
      rcases trip with ⟨sf', es', att'⟩
      rw [hcyc] at h
      simp only [Option.some.injEq, Prod.mk.injEq] at h
      obtain ⟨hsf, hes, hatt⟩ := h
      subst hsf
      subst hes
      obtain ⟨s1, s2, s3, s4, s5, s6⟩ := run_cycles_log_spec F J 3 _ _ _ _ hcyc
      have h0 : (auditor_node (aout, am)
          { input := target, output := "", iteration := 0,
            test_passed := false, model_used := "" }).iteration = 0 := rfl
      rw [h0] at s2 s6
      rw [countAgent_session_wrap "Fixer" es' _ _ (by decide) (by decide),
        countAgent_session_wrap "Judge" es' _ _ (by decide) (by decide),
        length_session_wrap]
      refine ⟨s1, by omega, s3, by omega, s5, by omega, ?_⟩
      intro hJ
      exact run_cycles_log_all_failed F J hJ 3 _ _ _ _ hcyc

/-- C5: if the backends before position `i` (the list `pre`) all fail
with retryable errors and the backend at position `i` fails with an
error classified fatal, the fallback loop re-raises that error at once:
the returned trace is exactly `pre ++ [m]`, so the backends in `rest`
(all positions after `i`) are never attempted; with `pre = []` a fatal
error on the first backend yields exactly one attempt. -/
theorem c5_fatal_short_circuit (attempt : String → AttemptResult)
    (m : String) (rest : List String) (e : String)
    (hm : attempt m = AttemptResult.err e)
    (hf : classify_retryable e = false) :
    ∀ (pre : List String),
      (∀ x ∈ pre, ∃ ex, attempt x = AttemptResult.err ex ∧
        classify_retryable ex = true) →
      ∀ (last : Option String),
        run_with_fallback attempt (pre ++ m :: rest) last =
          (RunOutcome.raised e, pre ++ [m]) := by
  intro pre
  induction pre with
  | nil =>
    intro _ last
    rw [List.nil_append, run_with_fallback, hm]
    simp [hf]
  | cons p ps ih =>
    intro hpre last
    obtain ⟨ex, hpx, hrx⟩ := hpre p (List.mem_cons_self p ps)
    rw [List.cons_append, run_with_fallback, hpx]
    simp only [hrx, if_true]
    rw [ih (fun x hx => hpre x (List.mem_cons_of_mem p hx)) (some ex)]
    simp

/-- Witness for C5: a fatal error on the first of the two configured
backends makes `run_fixer_agent` raise it after exactly one attempt. -/
theorem c5_witness :
    run_fixer_agent fatalAttempt =
      (RunOutcome.raised "invalid request: missing prompt",
       ["mistralai/devstral-2512:free"]) := by
  have h := c5_fatal_short_circuit fatalAttempt "mistralai/devstral-2512:free"
    ["meta-llama/llama-3.3-70b-instruct:free"] "invalid request: missing prompt"
    rfl (by decide) [] (fun x hx => absurd hx (List.not_mem_nil x)) none
  simpa [run_fixer_agent, FREE_MODELS] using h

/-- Counterexample for C6: when every backend fails with a retryable
error, `run_fixer_agent` and `run_judge_agent` end in
`RunOutcome.raised` carrying the last backend's own exception message —
the very same outcome constructor produced when a single backend's fatal
error is propagated.  The code has no distinct FallbackExhausted
condition: the `raise last_exception` statement re-raises the raw
backend exception, so the claimed distinguishable outcome does not exist
at this input. -/
theorem c6_counterexample :
    run_fixer_agent allRetryAttempt =
      (RunOutcome.raised "Error code: 429 - rate limit exceeded",
       FREE_MODELS) ∧
    run_judge_agent allRetryAttempt =
      (RunOutcome.raised "Error code: 429 - rate limit exceeded",
       FREE_MODELS) := by
  constructor <;> decide

/-- C6 as amended: when every backend in a nonempty list fails with a
retryable error, the fallback loop attempts every backend and then
re-raises the last backend's own error itself (`RunOutcome.raised`);
no separate FallbackExhausted condition exists, so the failure has the
same shape as propagating a single backend's error. -/
theorem c6_exhaust_reraises_last (attempt : String → AttemptResult) :
    ∀ (models : List String), models ≠ [] →
      (∀ m ∈ models, ∃ e, attempt m = AttemptResult.err e ∧
        classify_retryable e = true) →
      ∀ (last : Option String),
        ∃ e ml, models.getLast? = some ml ∧
          attempt ml = AttemptResult.err e ∧
          run_with_fallback attempt models last =
            (RunOutcome.raised e, models) := by
  intro models
  induction models with
  | nil => intro hne; exact absurd rfl hne
  | cons m rest ih =>
    intro _ h last
    obtain ⟨e, hme, hre⟩ := h m (List.mem_cons_self m rest)
    cases rest with
    | nil =>
      refine ⟨e, m, rfl, hme, ?_⟩
      rw [run_with_fallback, hme]
      simp [hre, run_with_fallback]
    | cons r rs =>
      obtain ⟨e', ml, hml, hmle, hrun⟩ :=
        ih (List.cons_ne_nil r rs)
          (fun x hx => h x (List.mem_cons_of_mem m hx)) (some e)
      refine ⟨e', ml, ?_, hmle, ?_⟩
      · rw [List.getLast?_cons_cons]; exact hml
      · rw [run_with_fallback, hme]
        simp only [hre, if_true]
        rw [hrun]

/-- Witness for C6 as amended: both configured backends failing with the
same retryable error makes the loop re-raise exactly that error after
attempting both. -/
theorem c6_witness :
    ∃ e ml, FREE_MODELS.getLast? = some ml ∧
      allRetryAttempt ml = AttemptResult.err e ∧
      run_with_fallback allRetryAttempt FREE_MODELS none =
        (RunOutcome.raised e, FREE_MODELS) :=
  c6_exhaust_reraises_last allRetryAttempt FREE_MODELS (by decide)
    (fun m _ => ⟨"Error code: 429 - rate limit exceeded", rfl, by decide⟩) none

/-- Counterexample for C7: the agent runners classify the error text
"Error code: 400 - Bad Request: malformed request body" — an error
indicating a fundamentally malformed request, which the claim requires
to be Fatal — as Retryable (its marker list contains "400"), while the
classifier assembled from the spec's own enumeration of Retryable
conditions rejects it; moreover the `invoke_with_fallback` variant
classifies the endpoint-not-found error "Error code: 404 - No endpoints
found", which the claim requires to be Retryable, as Fatal. -/
theorem c7_counterexample :
    classify_retryable
      "Error code: 400 - Bad Request: malformed request body" = true ∧
    spec_classify_retryable
      "Error code: 400 - Bad Request: malformed request body" = false ∧
    classify_retryable_invoke
      "Error code: 404 - No endpoints found" = false := by
  refine ⟨by decide, by decide, by decide⟩

/-- C7 as amended: the agent runners' classifier returns Retryable
exactly when the lowercased error text contains one of the nine marker
substrings "429", "rate limit", "streaming", "tools are not supported",
"400", "404", "no endpoints", "tool use", "provider"; in particular
HTTP 400 (bad request / malformed request) errors are Retryable, not
Fatal. -/
theorem c7_markers_characterize (msg : String) :
    (classify_retryable msg = true ↔
      ∃ x ∈ retryable_markers, strContains (pyLower msg) x = true) ∧
    classify_retryable "Error code: 400 - Bad Request" = true := by
  constructor
  · simp [classify_retryable, List.any_eq_true]
  · decide

/-- C3: any Verify output containing the explicit token
`verdict: all_tests_passed` (case-insensitively, via the lowercased
text) is classified `test_passed = true`; the statement carries no other
hypothesis, so no `failed` substring or pass/fail count elsewhere in the
text can override the explicit signal. -/
theorem c3_explicit_token_authoritative (out : String)
    (h : strContains (pyLower out) "verdict: all_tests_passed" = true) :
    judge_classify out = true := by
  simp [judge_classify, h]

/-- Witness for C3 at a concrete report whose free text contains
`failed` and a heuristic-rejecting count pattern. -/
theorem c3_witness :
    judge_classify "0 passed, 3 failed -- VERDICT: ALL_TESTS_PASSED" = true :=
  c3_explicit_token_authoritative _ (by decide)

/-- C4: when neither explicit verdict token occurs, classification
succeeds exactly when a passed-count `p > 0` is found and the
failed-count (0 when absent) is 0; in particular
"5 passed, 0 failed" is true, "0 passed, 0 failed" is false, and text
without a passed-count is false. -/
theorem c4_heuristic_fallback :
    (∀ out : String,
      strContains (pyLower out) "verdict: all_tests_passed" = false →
      strContains (pyLower out) "verdict: tests_failed" = false →
      (judge_classify out = true ↔
        ∃ p, findCount "passed".toList (pyLower out).toList = some p ∧
          0 < p ∧
          (findCount "failed".toList (pyLower out).toList).getD 0 = 0)) ∧
    judge_classify "5 passed, 0 failed" = true ∧
    judge_classify "0 passed, 0 failed" = false ∧
    judge_classify "all clear so far" = false := by
  refine ⟨?_, by decide, by decide, by decide⟩
  intro out h1 h2
  simp only [judge_classify, h1, h2, Bool.false_eq_true, if_false]
  cases hfc : findCount "passed".toList (pyLower out).toList with
  | none => simp
  | some p =>
    simp only [Bool.and_eq_true, decide_eq_true_eq]
    constructor
    · rintro ⟨hp, hf⟩
      exact ⟨p, rfl, hp, hf⟩
    · rintro ⟨p', hp', hpos, hf⟩
      cases hp'
      exact ⟨hpos, hf⟩

/-- Witness for C4: the general fallback characterization applied at the
concrete tokenless report "5 passed, 0 failed". -/
theorem c4_witness :
    judge_classify "5 passed, 0 failed" = true ∧
    (∃ p, findCount "passed".toList (pyLower "5 passed, 0 failed").toList = some p ∧
      0 < p ∧
      (findCount "failed".toList (pyLower "5 passed, 0 failed").toList).getD 0 = 0) := by
  have h := (c4_heuristic_fallback.1 "5 passed, 0 failed" (by decide) (by decide)).mp
    (by decide)
  exact ⟨by decide, h⟩

/-- C2: the loop decision terminates when `test_passed` holds, otherwise
terminates when the iteration count has reached 3, otherwise routes to
the feedback step; the feedback wraps the Verify report between the
fixed header and the remediation-guidance footer; and the decision is a
pure function of the `test_passed` and `iteration` fields of the state
alone. -/
theorem c2_loop_decision (s : AgentState) :
    (s.test_passed = true → should_continue s = "end") ∧
    (s.test_passed = false → 3 ≤ s.iteration → should_continue s = "end") ∧
    (s.test_passed = false → s.iteration < 3 →
      should_continue s = "prepare_feedback") ∧
    (prepare_feedback s).output = fb_header ++ s.output ++ fb_footer ∧
    strContains fb_footer "runtime errors" = true ∧
    strContains fb_footer "Assertion failures" = true ∧
    strContains fb_footer "Missing functionality" = true ∧
    (∀ t : AgentState, s.test_passed = t.test_passed →
      s.iteration = t.iteration → should_continue s = should_continue t) := by
  refine ⟨?_, ?_, ?_, rfl, by decide, by decide, by decide, ?_⟩
  · intro h; simp [should_continue, h]
  · intro h1 h2; simp [should_continue, h1, h2]
  · intro h1 h2; simp [should_continue, h1, Nat.not_le.mpr h2]
  · intro t h1 h2; simp [should_continue, h1, h2]

/-- Witness for C2 at the three concrete decision states. -/
theorem c2_witness :
    should_continue ⟨"t", "r", 0, true, ""⟩ = "end" ∧
    should_continue ⟨"t", "r", 3, false, ""⟩ = "end" ∧
    should_continue ⟨"t", "r", 1, false, ""⟩ = "prepare_feedback" :=
  ⟨(c2_loop_decision ⟨"t", "r", 0, true, ""⟩).1 rfl,
   (c2_loop_decision ⟨"t", "r", 3, false, ""⟩).2.1 rfl (by decide),
   (c2_loop_decision ⟨"t", "r", 1, false, ""⟩).2.2.1 rfl (by decide)⟩

/-- C9: every `_write_log_entry` call appends exactly one entry and
leaves every previously recorded entry present and unmodified (first
conjunct), and after any sequence of logger calls the store holds
exactly the prior entries followed by all entries written, in order
(second conjunct) — so the history written so far is already persisted
when a later call, or a crash between calls, happens.  A file that does
not decode as JSON loads as the empty list, exactly as the
`except json.JSONDecodeError` branch of the code does. -/
theorem c9_append_only_immediate :
    (∀ (f : LogFile) (e : LogEntry),
      loadedData (write_log_entry e f) = loadedData f ++ [e]) ∧
    (∀ (es : List LogEntry) (f : LogFile),
      loadedData (write_log_entries es f) = loadedData f ++ es) := by
  constructor
  · intro f e; rfl
  · intro es
    induction es with
    | nil => intro f; simp [write_log_entries]
    | cons e es ih =>
      intro f
      have h : write_log_entries (e :: es) f =
          write_log_entries es (write_log_entry e f) := rfl
      rw [h, ih, write_log_entry]
      simp [loadedData]

/-- C10: whenever the joined and resolved path falls outside the sandbox
root, every file tool returns the denial string; the write tools
additionally leave the file system untouched.  Each tool body is a total
function (the Python originals wrap their bodies in
`try/except Exception` returning strings), so no exception reaches the
caller. -/
theorem c10_sandbox_guard (root : List String) (fp content : String)
    (fs : FS) (runner runner2 : List String → String)
    (h : insideSandbox root (resolveUnder root (dropSandboxDir fp)) = false) :
    read_file_content root fp fs = "Access denied: path outside sandbox" ∧
    write_file_content root fp content fs =
      ("Access denied: path outside sandbox", fs) ∧
    write_file root fp content fs =
      ("Access denied: path outside sandbox", fs) ∧
    run_pytest root fp fs runner = "Access denied: path outside sandbox" ∧
    run_pylint root fp fs runner2 = "Access denied: path outside sandbox" := by
  refine ⟨?_, ?_, ?_, ?_, ?_⟩ <;>
    simp [read_file_content, write_file_content, write_file, run_pytest,
      run_pylint, h]

/-- Witness for C10: a `..`-traversal path, an absolute path, and a
traversal hidden behind the stripped `sandbox/` marker are all denied
against a concrete root. -/
theorem c10_witness :
    read_file_content ["home", "agent", "sandbox"] "../../../etc/passwd" ⟨[]⟩ =
      "Access denied: path outside sandbox" ∧
    write_file_content ["home", "agent", "sandbox"] "/etc/passwd" "x" ⟨[]⟩ =
      ("Access denied: path outside sandbox", ⟨[]⟩) ∧
    run_pytest ["home", "agent", "sandbox"] "sandbox/../../escape.py" ⟨[]⟩
      (fun _ => "ran") = "Access denied: path outside sandbox" :=
  ⟨(c10_sandbox_guard _ _ "x" _ (fun _ => "ran") (fun _ => "ran") (by decide)).1,
   (c10_sandbox_guard _ _ "x" _ (fun _ => "ran") (fun _ => "ran") (by decide)).2.1,
   (c10_sandbox_guard _ _ "x" _ (fun _ => "ran") (fun _ => "ran")
     (by decide)).2.2.2.1⟩



/-- C1: for every completed session of the engine (whose `max_iterations`
is hard-coded to 3), the final iteration counter is at most 3 and at
most 3 Fixer records were logged (one per Fix invocation); and whenever
every successful Verify report classifies as failed, the session ends
with `iteration = 3`, `test_passed = false`, and exactly 3 Fix and 3
Verify invocations logged. -/
theorem c1_iteration_bound (target : String) (A : String → AttemptResult)
    (F J : Nat → String → AttemptResult) (sf : AgentState)
    (es : List LogEntry) (att : Nat)
    (h : run_session_log target A F J = some (sf, es, att)) :
    (sf.iteration ≤ 3 ∧ countAgent "Fixer" es ≤ 3) ∧
    ((∀ k m out, J k m = AttemptResult.ok out → judge_classify out = false) →
      sf.iteration = 3 ∧ sf.test_passed = false ∧
      countAgent "Fixer" es = 3 ∧ countAgent "Judge" es = 3) := by
  obtain ⟨s1, s2, s3, s4, s5, s6, s7⟩ := run_session_log_spec _ _ _ _ _ _ _ h
  refine ⟨⟨s6, by omega⟩, ?_⟩
  intro hJ
  have hf := s7 hJ
  have h3 : 3 ≤ sf.iteration := by
    rcases s5 with h5 | h5
    · rw [hf] at h5; exact absurd h5 (by simp)
    · exact h5
  exact ⟨by omega, hf, by omega, by omega⟩

/-- Witness for C1: the concrete session in which every judge report is
the explicit failure verdict completes with iteration 3, failed outcome,
and exactly 3 Fixer and 3 Judge records. -/
theorem c1_witness :
    ∃ sf es att,
      run_session_log "tgt" auditOkOracle fixOkOracle judgeFailOracle =
        some (sf, es, att) ∧
      sf.iteration = 3 ∧ sf.test_passed = false ∧
      countAgent "Fixer" es = 3 ∧ countAgent "Judge" es = 3 := by
  have h : run_session_log "tgt" auditOkOracle fixOkOracle judgeFailOracle =
      some (⟨"tgt", "VERDICT: TESTS_FAILED", 3, false,
              "mistralai/devstral-2512:free"⟩,
        [⟨"SYSTEM", "STARTUP", "STARTED", 0⟩,
         ⟨"Auditor", "CODE_ANALYSIS", "SUCCESS", 0⟩,
         ⟨"Fixer", "FIX", "SUCCESS", 1⟩,
         ⟨"Judge", "TEST", "TESTS_FAILED", 1⟩,
         ⟨"Fixer", "FIX", "SUCCESS", 2⟩,
         ⟨"Judge", "TEST", "TESTS_FAILED", 2⟩,
         ⟨"Fixer", "FIX", "SUCCESS", 3⟩,
         ⟨"Judge", "TEST", "TESTS_FAILED", 3⟩,
         ⟨"SYSTEM", "COMPLETION", "COMPLETED_WITH_FAILURES", 3⟩], 7) := by
    decide
  have hJ : ∀ k m out, judgeFailOracle k m = AttemptResult.ok out →
      judge_classify out = false := by
    intro k m out hout
    simp only [judgeFailOracle] at hout
    injection hout with hv
    rw [← hv]
    decide
  have hc := (c1_iteration_bound "tgt" auditOkOracle fixOkOracle
    judgeFailOracle _ _ _ h).2 hJ
  exact ⟨_, _, _, h, hc.1, hc.2.1, hc.2.2.1, hc.2.2.2⟩

/-- Counterexample for C8: a concrete completed session makes 4 backend
attempts in total (1 auditor, 2 fixer — the first fails retryable — and
1 judge) yet writes 5 log records (startup, auditor, fixer, judge,
completion): the record count does not equal the sum of backend attempts
(and a Start/Finish pair per attempt would need 8 records); the fixer
stage's 2 attempts yield a single record, so failed attempts are not
logged at all. -/
theorem c8_counterexample :
    (run_session_log "tgt" auditOkOracle fixRetryOracle judgePassOracle).map
      (fun r => (r.2.1.length, r.2.2, countAgent "Fixer" r.2.1)) =
      some (5, 4, 1) ∧
    (5 : Nat) ≠ 4 ∧ (5 : Nat) ≠ 2 * 4 ∧ (1 : Nat) ≠ 2 :=
  ⟨by decide, by decide, by decide, by decide⟩

/-- C8 as amended: for every completed session, the log contains one
record per successful stage invocation plus one startup and one
completion record — `3 + fixerRecords + judgeRecords` in total, with
equally many fixer and judge records — independent of how many backend
attempts the stage calls made; failed backend attempts contribute no
records and no Start/Finish record pairs exist. -/
theorem c8_one_record_per_stage (target : String) (A : String → AttemptResult)
    (F J : Nat → String → AttemptResult) (sf : AgentState)
    (es : List LogEntry) (att : Nat)
    (h : run_session_log target A F J = some (sf, es, att)) :
    es.length = 3 + countAgent "Fixer" es + countAgent "Judge" es ∧
    countAgent "Fixer" es = countAgent "Judge" es := by
  obtain ⟨s1, _, _, s4, _, _, _⟩ := run_session_log_spec _ _ _ _ _ _ _ h
  exact ⟨s4, s1⟩

/-- Witness for C8 as amended: the 4-attempt session of the
counterexample indeed has `5 = 3 + 1 + 1` records. -/
theorem c8_witness :
    ∃ sf es att,
      run_session_log "tgt" auditOkOracle fixRetryOracle judgePassOracle =
        some (sf, es, att) ∧
      es.length = 3 + countAgent "Fixer" es + countAgent "Judge" es := by
  have h : run_session_log "tgt" auditOkOracle fixRetryOracle judgePassOracle =
      some (⟨"tgt", "VERDICT: ALL_TESTS_PASSED", 1, true,
              "mistralai/devstral-2512:free"⟩,
        [⟨"SYSTEM", "STARTUP", "STARTED", 0⟩,
         ⟨"Auditor", "CODE_ANALYSIS", "SUCCESS", 0⟩,
         ⟨"Fixer", "FIX", "SUCCESS", 1⟩,
         ⟨"Judge", "TEST", "SUCCESS", 1⟩,
         ⟨"SYSTEM", "COMPLETION", "SUCCESS", 1⟩], 4) := by
    decide
  exact ⟨_, _, _, h,
    (c8_one_record_per_stage "tgt" auditOkOracle fixRetryOracle
      judgePassOracle _ _ _ h).1⟩
